import Mathlib

/-!
# Circle Attack (`src/ppong.c`): the game-state machine and the frame callback

A shallow embedding of `ppong.c`.  The file owns four globals (`game_state`,
`player`, `opponent`, `bullet`), the `points` singleton and the overlay pointer.
Everything else it touches lives in other translation units (`player.c`,
`opponent.c`, `bullet.c`, the collision helper) or in the watch SDK; those
functions are taken as parameters (`Helpers`) and every call to them is written
to `State.log`, so that statements about *which* calls a handler makes can be
stated and proved.

Conventions.
* The C `int` of `points.points` is a 32-bit two's-complement integer.  Signed
  overflow is undefined behaviour in C, so `points_update` returns `none`
  there and every function that calls it is `Option`-valued.
* An entity helper receives a pointer to one entity.  It is a function of that
  entity and of the `world` (whatever state is not owned by `ppong.c`: the
  random generator, the graphics context, fields of the entity structures that
  `ppong.c` never names).  A helper does not write `game_state`, `points` or the
  timer queue.
-/

namespace CircleAttack

/-- The anonymous enumeration behind `game_state` (`ppong.c` lines 11-15). -/
inductive GameState where
  | GAME_ACTIVE
  | GAME_PAUSED
  | GAME_OVER
  deriving DecidableEq, Repr

/-- Modelled from the spec: the declaration of the `obj` member shared by the
three entities is in a header that is not among the sources.  `ppong.c` reads
and writes exactly these five members and assigns integer constants to them;
it only ever adds two of them or negates one, so they are kept as mathematical
integers. -/
structure Object where
  x_pos : Int
  y_pos : Int
  x_vel : Int
  y_vel : Int
  size : Int
  deriving DecidableEq, Repr

/-- Modelled from the spec: `Player` of `player.h` (position/velocity/health). -/
structure Player where
  obj : Object
  health : Int
  deriving DecidableEq, Repr

/-- Modelled from the spec: `Opponent` of `opponent.h` (position/velocity). -/
structure Opponent where
  obj : Object
  deriving DecidableEq, Repr

/-- Modelled from the spec: `Bullet` of `bullet.h` (position/velocity). -/
structure Bullet where
  obj : Object
  deriving DecidableEq, Repr

/-- The `points` singleton (`ppong.c` lines 59-63).  `text` holds the characters
of the buffer before its terminating NUL. -/
structure Points where
  points : Int
  text : List Char
  deriving DecidableEq, Repr

/-- Which global a pointer argument of `object_collides` points into. -/
inductive Entity where
  | player
  | opponent
  | bullet
  deriving DecidableEq, Repr

/-- One call that leaves `ppong.c`, with its scalar arguments.  The SDK calls
that only read or configure a layer (bounds, alignment, colours, parenting) are
not logged. -/
inductive Call where
  | player_update
  | opponent_update
  | bullet_update
  | object_collides (a b : Entity)
  | bullet_hide
  | bullet_respawn (x_pos y_pos x_vel y_vel : Int)
  | opponent_kill
  | opponent_respawn
  | player_health_update (delta : Int)
  | player_draw
  | opponent_draw
  | bullet_draw
  | player_health_draw
  | vibes_short_pulse
  | window_stack_pop
  | layer_mark_dirty
  | app_timer_register (timeout_ms : Nat)
  | text_layer_create
  | text_layer_set_text (text : String)
  | text_layer_destroy
  | layer_create
  deriving DecidableEq, Repr

/-- The functions `ppong.c` calls in the entity translation units. -/
structure Helpers (W : Type) where
  player_update : W → Player → W × Player
  opponent_update : W → Opponent → W × Opponent
  bullet_update : W → Bullet → W × Bullet
  object_collides : W → Object → Object → Bool
  bullet_hide : W → Bullet → W × Bullet
  bullet_respawn : W → Bullet → Int → Int → Int → Int → W × Bullet
  opponent_kill : W → Opponent → W × Opponent
  opponent_respawn : W → Opponent → W × Opponent
  player_health_update : W → Player → Int → W × Player
  player_draw : W → Player → W × Player
  opponent_draw : W → Opponent → W × Opponent
  bullet_draw : W → Bullet → W × Bullet
  player_health_draw : W → Player → W × Player

/-- The globals of `ppong.c`, the pending application timers (each with the
delay it was registered with), the outside world and the call log. -/
structure State (W : Type) where
  game_state : GameState
  player : Player
  opponent : Opponent
  bullet : Bullet
  points : Points
  overlay_text_layer : Option String
  timers : List Nat
  world : W
  log : List Call

variable {W : Type}

/-- Smallest value of a 32-bit `int`. -/
def INT_MIN : Int := -2147483648

/-- Largest value of a 32-bit `int`. -/
def INT_MAX : Int := 2147483647

/-- Append one call to the log. -/
def State.record (s : State W) (c : Call) : State W :=
  { s with log := s.log ++ [c] }

/-- The conversion `%i`: an optional minus sign and the decimal digits. -/
def fmt_i (n : Int) : List Char :=
  if n < 0 then '-' :: Nat.toDigits 10 n.natAbs else Nat.toDigits 10 n.toNat

/-- The output `"Points: %i"` asks for, before any truncation. -/
def points_format (n : Int) : List Char :=
  "Points: ".toList ++ fmt_i n

/-- What `snprintf(buf, size, ...)` leaves in `buf` before the NUL: the first
`size - 1` characters of the formatted output. -/
def snprintf (size : Nat) (out : List Char) : List Char :=
  out.take (size - 1)

/-- The macro `ARRAYSIZE(points.text)` for `char text[15]`. -/
def ARRAYSIZE_points_text : Nat := 15

/-- The function `points_update` (lines 65-68); `none` on signed overflow. -/
def points_update (delta : Int) (s : State W) : Option (State W) :=
  let sum := s.points.points + delta
  if INT_MIN ≤ sum ∧ sum ≤ INT_MAX then
    some { s with points :=
      { points := sum, text := snprintf ARRAYSIZE_points_text (points_format sum) } }
  else
    none

/-! ### Calls into the entity translation units -/

/-- The call `player_update(&player)`. -/
def call_player_update (h : Helpers W) (s : State W) : State W :=
  let r := h.player_update s.world s.player
  { s with world := r.1, player := r.2, log := s.log ++ [Call.player_update] }

/-- The call `opponent_update(&opponent)`. -/
def call_opponent_update (h : Helpers W) (s : State W) : State W :=
  let r := h.opponent_update s.world s.opponent
  { s with world := r.1, opponent := r.2, log := s.log ++ [Call.opponent_update] }

/-- The call `bullet_update(&bullet)`. -/
def call_bullet_update (h : Helpers W) (s : State W) : State W :=
  let r := h.bullet_update s.world s.bullet
  { s with world := r.1, bullet := r.2, log := s.log ++ [Call.bullet_update] }

/-- The call `bullet_hide(&bullet)`. -/
def call_bullet_hide (h : Helpers W) (s : State W) : State W :=
  let r := h.bullet_hide s.world s.bullet
  { s with world := r.1, bullet := r.2, log := s.log ++ [Call.bullet_hide] }

/-- The call `bullet_respawn(&bullet, x_pos, y_pos, x_vel, y_vel)`. -/
def call_bullet_respawn (h : Helpers W) (x_pos y_pos x_vel y_vel : Int) (s : State W) :
    State W :=
  let r := h.bullet_respawn s.world s.bullet x_pos y_pos x_vel y_vel
  { s with world := r.1, bullet := r.2,
           log := s.log ++ [Call.bullet_respawn x_pos y_pos x_vel y_vel] }

/-- The call `opponent_kill(&opponent)`. -/
def call_opponent_kill (h : Helpers W) (s : State W) : State W :=
  let r := h.opponent_kill s.world s.opponent
  { s with world := r.1, opponent := r.2, log := s.log ++ [Call.opponent_kill] }

/-- The call `opponent_respawn(&opponent)`. -/
def call_opponent_respawn (h : Helpers W) (s : State W) : State W :=
  let r := h.opponent_respawn s.world s.opponent
  { s with world := r.1, opponent := r.2, log := s.log ++ [Call.opponent_respawn] }

/-- The call `player_health_update(&player, delta)`. -/
def call_player_health_update (h : Helpers W) (delta : Int) (s : State W) : State W :=
  let r := h.player_health_update s.world s.player delta
  { s with world := r.1, player := r.2, log := s.log ++ [Call.player_health_update delta] }

/-- The call `player_draw(&player, ctx)`. -/
def call_player_draw (h : Helpers W) (s : State W) : State W :=
  let r := h.player_draw s.world s.player
  { s with world := r.1, player := r.2, log := s.log ++ [Call.player_draw] }

/-- The call `opponent_draw(&opponent, ctx)`. -/
def call_opponent_draw (h : Helpers W) (s : State W) : State W :=
  let r := h.opponent_draw s.world s.opponent
  { s with world := r.1, opponent := r.2, log := s.log ++ [Call.opponent_draw] }

/-- The call `bullet_draw(&bullet, ctx)`. -/
def call_bullet_draw (h : Helpers W) (s : State W) : State W :=
  let r := h.bullet_draw s.world s.bullet
  { s with world := r.1, bullet := r.2, log := s.log ++ [Call.bullet_draw] }

/-- The call `player_health_draw(&player, ctx)`. -/
def call_player_health_draw (h : Helpers W) (s : State W) : State W :=
  let r := h.player_health_draw s.world s.player
  { s with world := r.1, player := r.2, log := s.log ++ [Call.player_health_draw] }

/-- The call `app_timer_register(timeout_ms, timer_callback, NULL)`: one more
pending timer. -/
def app_timer_register (timeout_ms : Nat) (s : State W) : State W :=
  { s with timers := s.timers ++ [timeout_ms],
           log := s.log ++ [Call.app_timer_register timeout_ms] }

/-! ### The functions of `ppong.c` -/

/-- The function `overlay_open` (lines 30-50). -/
def overlay_open (text : String) (s : State W) : State W :=
  { s with overlay_text_layer := some text,
           log := s.log ++ [Call.text_layer_create, Call.text_layer_set_text text] }

/-- The function `overlay_close` (lines 52-56): the pointer is not cleared. -/
def overlay_close (s : State W) : State W :=
  match s.overlay_text_layer with
  | some _ => s.record Call.text_layer_destroy
  | none => s

/-- The function `game_over` (lines 194-197). -/
def game_over (s : State W) : State W :=
  overlay_open "GAME OVER" { s with game_state := GameState.GAME_OVER }

/-- The function `game_pause` (lines 199-202). -/
def game_pause (s : State W) : State W :=
  overlay_open "PAUSED" { s with game_state := GameState.GAME_PAUSED }

/-- The function `game_unpause` (lines 204-207). -/
def game_unpause (s : State W) : State W :=
  overlay_close { s with game_state := GameState.GAME_ACTIVE }

/-- The function `timer_callback` (lines 158-169), as called directly. -/
def timer_callback (s : State W) : State W :=
  let s1 := s.record Call.layer_mark_dirty
  match s1.game_state with
  | GameState.GAME_ACTIVE => app_timer_register (1000 / 30) s1
  | GameState.GAME_PAUSED => app_timer_register (1000 / 30) s1
  | GameState.GAME_OVER => s1

/-- The i-th pending timer expires: it leaves the queue and `timer_callback`
runs.  Not enabled (`none`) when there is no such timer. -/
def timer_fire (i : Nat) (s : State W) : Option (State W) :=
  if i < s.timers.length then
    some (timer_callback { s with timers := s.timers.eraseIdx i })
  else
    none

/-- The function `game_init` (lines 171-192). -/
def game_init (h : Helpers W) (s : State W) : Option (State W) :=
  let s1 : State W := { s with game_state := GameState.GAME_ACTIVE }
  let s2 := overlay_close s1
  let s3 : State W := { s2 with player := { s2.player with health := 100 } }
  let s4 : State W := { s3 with player := { s3.player with
    obj := { x_pos := 0, y_pos := 84, x_vel := 0, y_vel := 0, size := 20 } } }
  let s5 := call_opponent_respawn h s4
  let s6 : State W := { s5 with bullet := { s5.bullet with
    obj := { s5.bullet.obj with size := 5 } } }
  let s7 := call_bullet_hide h s6
  let s8 : State W := { s7 with points := { s7.points with points := 0 } }
  (points_update 0 s8).map timer_callback

/-- The function `click_back_handler` (lines 70-80). -/
def click_back_handler (s : State W) : State W :=
  match s.game_state with
  | GameState.GAME_ACTIVE => game_pause s
  | GameState.GAME_PAUSED => s.record Call.window_stack_pop
  | GameState.GAME_OVER => s.record Call.window_stack_pop

/-- The function `start_select_handler` (lines 83-95). -/
def start_select_handler (h : Helpers W) (s : State W) : Option (State W) :=
  match s.game_state with
  | GameState.GAME_ACTIVE =>
    some (call_bullet_respawn h (s.player.obj.x_pos + s.player.obj.size) s.player.obj.y_pos
      10 0 s)
  | GameState.GAME_PAUSED => some (game_unpause s)
  | GameState.GAME_OVER => game_init h s

/-- Assignment to `player.obj.y_vel`. -/
def set_player_y_vel (v : Int) (s : State W) : State W :=
  { s with player := { s.player with obj := { s.player.obj with y_vel := v } } }

/-- The function `start_up_handler` (lines 97-99). -/
def start_up_handler (s : State W) : State W := set_player_y_vel (-5) s

/-- The function `end_up_handler` (lines 101-103). -/
def end_up_handler (s : State W) : State W := set_player_y_vel 0 s

/-- The function `start_down_handler` (lines 105-107). -/
def start_down_handler (s : State W) : State W := set_player_y_vel 5 s

/-- The function `end_down_handler` (lines 109-111). -/
def end_down_handler (s : State W) : State W := set_player_y_vel 0 s

/-- Lines 116-118 of `render_layer_update_callback`: the three updates. -/
def frame_advance (h : Helpers W) (s : State W) : State W :=
  call_bullet_update h (call_opponent_update h (call_player_update h s))

/-- The condition of line 120: `object_collides(&bullet.obj, &opponent.obj)`. -/
def bullet_hits (h : Helpers W) (s : State W) : Bool :=
  h.object_collides s.world s.bullet.obj s.opponent.obj

/-- The condition of line 127: `opponent.obj.x_pos + opponent.obj.size < 0`. -/
def opponent_passed (s : State W) : Bool :=
  decide (s.opponent.obj.x_pos + s.opponent.obj.size < 0)

/-- The condition of line 133: `object_collides(&player.obj, &opponent.obj)`. -/
def player_crashes (h : Helpers W) (s : State W) : Bool :=
  h.object_collides s.world s.player.obj s.opponent.obj

/-- Lines 120-124: the bullet/opponent check and its block. -/
def frame_bullet_hit (h : Helpers W) (s : State W) : Option (State W) :=
  let s1 := s.record (Call.object_collides Entity.bullet Entity.opponent)
  if bullet_hits h s then
    (points_update 1 s1).map (fun s2 => call_opponent_kill h (call_bullet_hide h s2))
  else
    some s1

/-- Lines 126-131: the opponent has passed the screen boundary. -/
def frame_boundary (h : Helpers W) (s : State W) : Option (State W) :=
  if opponent_passed s then
    (points_update (-1) s).map
      (fun s1 => (call_opponent_respawn h s1).record Call.vibes_short_pulse)
  else
    some s

/-- Lines 133-137: the player/opponent check and its block. -/
def frame_player_hit (h : Helpers W) (s : State W) : State W :=
  let s1 := s.record (Call.object_collides Entity.player Entity.opponent)
  if player_crashes h s then
    (call_opponent_kill h
      (call_player_health_update h (-s.opponent.obj.size) s1)).record Call.vibes_short_pulse
  else
    s1

/-- Lines 139-142: the four draw calls. -/
def frame_draw (h : Helpers W) (s : State W) : State W :=
  call_player_health_draw h (call_bullet_draw h (call_opponent_draw h (call_player_draw h s)))

/-- The state on which the third collision check of an Active frame runs. -/
def frame_before_player_hit (h : Helpers W) (s : State W) : Option (State W) :=
  (frame_bullet_hit h (frame_advance h s)).bind (frame_boundary h)

/-- The function `render_layer_update_callback` (lines 113-149). -/
def render_layer_update_callback (h : Helpers W) (s : State W) : Option (State W) :=
  match s.game_state with
  | GameState.GAME_ACTIVE =>
    (frame_before_player_hit h s).map (fun s3 => frame_draw h (frame_player_hit h s3))
  | GameState.GAME_PAUSED => some s
  | GameState.GAME_OVER => some s

/-- The function `window_load` (lines 209-238): the render layer and the points
text layer are created, the text layer is given `points.text` to show, then
`game_init` runs. -/
def window_load (h : Helpers W) (s : State W) : Option (State W) :=
  game_init h
    (((s.record Call.layer_create).record Call.text_layer_create).record
      (Call.text_layer_set_text (String.mk s.points.text)))

/-! ### The event loop -/

/-- What the event loop can deliver to `ppong.c` once the window is loaded. -/
inductive Event where
  | back
  | select
  | up_press
  | up_release
  | down_press
  | down_release
  | timer (i : Nat)
  | render
  deriving DecidableEq, Repr

/-- The handler `click_config_provider` (lines 151-156), `app_timer_register`
and `layer_set_update_proc` attach to each event.  `none`: the event is not
enabled, or the handler runs into undefined behaviour. -/
def step (h : Helpers W) (e : Event) (s : State W) : Option (State W) :=
  match e with
  | Event.back => some (click_back_handler s)
  | Event.select => start_select_handler h s
  | Event.up_press => some (start_up_handler s)
  | Event.up_release => some (end_up_handler s)
  | Event.down_press => some (start_down_handler s)
  | Event.down_release => some (end_down_handler s)
  | Event.timer i => timer_fire i s
  | Event.render => render_layer_update_callback h s

/-- Deliver a list of events, left to right. -/
def run (h : Helpers W) : List Event → State W → Option (State W)
  | [], s => some s
  | e :: es, s => (step h e s).bind (run h es)

/-- The events of the Up and Down buttons. -/
def Event.is_up_down : Event → Bool
  | Event.up_press => true
  | Event.up_release => true
  | Event.down_press => true
  | Event.down_release => true
  | _ => false

/-! ### The transition table the state machine is specified by -/

/-- The state the Back button leads to, as the specification lists it. -/
def spec_back : GameState → GameState
  | GameState.GAME_ACTIVE => GameState.GAME_PAUSED
  | GameState.GAME_PAUSED => GameState.GAME_PAUSED
  | GameState.GAME_OVER => GameState.GAME_OVER

/-- The state the Select button leads to, as the specification lists it. -/
def spec_select : GameState → GameState
  | GameState.GAME_ACTIVE => GameState.GAME_ACTIVE
  | GameState.GAME_PAUSED => GameState.GAME_ACTIVE
  | GameState.GAME_OVER => GameState.GAME_ACTIVE

/-! ### A concrete instance, used to evaluate the definitions -/

/-- Linear motion of one object. -/
def Object.move (o : Object) : Object :=
  { o with x_pos := o.x_pos + o.x_vel, y_pos := o.y_pos + o.y_vel }

/-- Overlap of two axis-aligned squares. -/
def Object.overlaps (a b : Object) : Bool :=
  decide (a.x_pos < b.x_pos + b.size) && decide (b.x_pos < a.x_pos + a.size) &&
  decide (a.y_pos < b.y_pos + b.size) && decide (b.y_pos < a.y_pos + a.size)

/-- An instance of the helpers over a trivial world. -/
def sample_helpers : Helpers Unit where
  player_update := fun w p => (w, { p with obj := p.obj.move })
  opponent_update := fun w o => (w, { o with obj := o.obj.move })
  bullet_update := fun w b => (w, { b with obj := b.obj.move })
  object_collides := fun _ a b => a.overlaps b
  bullet_hide := fun w b => (w, { b with obj := { b.obj with x_pos := 200, x_vel := 0 } })
  bullet_respawn := fun w b x y xv yv =>
    (w, { b with obj := { b.obj with x_pos := x, y_pos := y, x_vel := xv, y_vel := yv } })
  opponent_kill := fun w o => (w, { o with obj := { o.obj with x_pos := 144, y_pos := 84 } })
  opponent_respawn := fun w _ =>
    (w, { obj := { x_pos := 30, y_pos := 84, x_vel := -3, y_vel := 0, size := 10 } })
  player_health_update := fun w p d => (w, { p with health := p.health + d })
  player_draw := fun w p => (w, p)
  opponent_draw := fun w o => (w, o)
  bullet_draw := fun w b => (w, b)
  player_health_draw := fun w p => (w, p)

/-- The zero-initialised globals at program start. -/
def sample_start : State Unit where
  game_state := GameState.GAME_ACTIVE
  player := { obj := { x_pos := 0, y_pos := 0, x_vel := 0, y_vel := 0, size := 0 }, health := 0 }
  opponent := { obj := { x_pos := 0, y_pos := 0, x_vel := 0, y_vel := 0, size := 0 } }
  bullet := { obj := { x_pos := 0, y_pos := 0, x_vel := 0, y_vel := 0, size := 0 } }
  points := { points := 0, text := [] }
  overlay_text_layer := none
  timers := []
  world := ()
  log := []

/-- The states `s` and `t` agree on everything but `player.obj.y_vel`. -/
def same_except_y_vel (s t : State W) : Prop :=
  t.game_state = s.game_state ∧
  t.player.obj.x_pos = s.player.obj.x_pos ∧
  t.player.obj.y_pos = s.player.obj.y_pos ∧
  t.player.obj.x_vel = s.player.obj.x_vel ∧
  t.player.obj.size = s.player.obj.size ∧
  t.player.health = s.player.health ∧
  t.opponent = s.opponent ∧
  t.bullet = s.bullet ∧
  t.points = s.points ∧
  t.overlay_text_layer = s.overlay_text_layer ∧
  t.timers = s.timers ∧
  t.world = s.world ∧
  t.log = s.log

/-- The part of a state `game_init` assigns constants to. -/
def State.reset_part (s : State W) : GameState × Player × Points :=
  (s.game_state, s.player, s.points)

/-- An Active state in which the bullet reaches the opponent in the next frame:
the two overlap once both have moved, and would not had either stayed. -/
def sample_hit : State Unit where
  game_state := GameState.GAME_ACTIVE
  player := { obj := { x_pos := 0, y_pos := 84, x_vel := 0, y_vel := 0, size := 20 },
              health := 100 }
  opponent := { obj := { x_pos := 100, y_pos := 84, x_vel := -3, y_vel := 0, size := 10 } }
  bullet := { obj := { x_pos := 84, y_pos := 84, x_vel := 10, y_vel := 0, size := 5 } }
  points := { points := 0, text := "Points: 0".toList }
  overlay_text_layer := none
  timers := [33]
  world := ()
  log := []

/-- An Active state in which the opponent reaches the player in the next frame. -/
def sample_crash : State Unit where
  game_state := GameState.GAME_ACTIVE
  player := { obj := { x_pos := 0, y_pos := 84, x_vel := 0, y_vel := 0, size := 20 },
              health := 100 }
  opponent := { obj := { x_pos := 10, y_pos := 84, x_vel := -3, y_vel := 0, size := 10 } }
  bullet := { obj := { x_pos := 200, y_pos := 84, x_vel := 0, y_vel := 0, size := 5 } }
  points := { points := 0, text := "Points: 0".toList }
  overlay_text_layer := none
  timers := [33]
  world := ()
  log := []

/-- The state after `window_load`, Back and one timer expiry. -/
def sample_paused : State Unit where
  game_state := GameState.GAME_PAUSED
  player := { obj := { x_pos := 0, y_pos := 84, x_vel := 0, y_vel := 0, size := 20 },
              health := 100 }
  opponent := { obj := { x_pos := 30, y_pos := 84, x_vel := -3, y_vel := 0, size := 10 } }
  bullet := { obj := { x_pos := 200, y_pos := 0, x_vel := 0, y_vel := 0, size := 5 } }
  points := { points := 0, text := "Points: 0".toList }
  overlay_text_layer := some "PAUSED"
  timers := [33]
  world := ()
  log := [Call.layer_create, Call.text_layer_create, Call.text_layer_set_text "",
    Call.opponent_respawn, Call.bullet_hide, Call.layer_mark_dirty, Call.app_timer_register 33,
    Call.text_layer_create, Call.text_layer_set_text "PAUSED", Call.layer_mark_dirty,
    Call.app_timer_register 33]

/-- The state after `game_init`, Select and one frame: the bullet has hit. -/
def sample_scored : State Unit where
  game_state := GameState.GAME_ACTIVE
  player := { obj := { x_pos := 0, y_pos := 84, x_vel := 0, y_vel := 0, size := 20 },
              health := 100 }
  opponent := { obj := { x_pos := 144, y_pos := 84, x_vel := -3, y_vel := 0, size := 10 } }
  bullet := { obj := { x_pos := 200, y_pos := 84, x_vel := 0, y_vel := 0, size := 5 } }
  points := { points := 1, text := "Points: 1".toList }
  overlay_text_layer := none
  timers := [33]
  world := ()
  log := [Call.opponent_respawn, Call.bullet_hide, Call.layer_mark_dirty,
    Call.app_timer_register 33, Call.bullet_respawn 20 84 10 0,
    Call.player_update, Call.opponent_update, Call.bullet_update,
    Call.object_collides Entity.bullet Entity.opponent, Call.bullet_hide, Call.opponent_kill,
    Call.object_collides Entity.player Entity.opponent,
    Call.player_draw, Call.opponent_draw, Call.bullet_draw, Call.player_health_draw]

/-- The state `sample_scored` after Back. -/
def sample_scored_paused : State Unit :=
  { sample_scored with
    game_state := GameState.GAME_PAUSED
    overlay_text_layer := some "PAUSED"
    log := sample_scored.log ++ [Call.text_layer_create, Call.text_layer_set_text "PAUSED"] }

/-- An Active state in which the opponent leaves the screen in the next frame:
after the update its right edge is at -1. -/
def sample_pass : State Unit :=
  { sample_crash with
    opponent := { obj := { x_pos := -8, y_pos := 20, x_vel := -3, y_vel := 0, size := 10 } } }

/-- An Active state in which the right edge of the opponent is exactly at 0
after the update. -/
def sample_edge : State Unit :=
  { sample_crash with
    opponent := { obj := { x_pos := -7, y_pos := 20, x_vel := -3, y_vel := 0, size := 10 } } }

/-- An Active state in which all three entities move and nothing collides. -/
def sample_fly : State Unit where
  game_state := GameState.GAME_ACTIVE
  player := { obj := { x_pos := 0, y_pos := 84, x_vel := 0, y_vel := -5, size := 20 },
              health := 100 }
  opponent := { obj := { x_pos := 100, y_pos := 84, x_vel := -3, y_vel := 0, size := 10 } }
  bullet := { obj := { x_pos := 50, y_pos := 84, x_vel := 10, y_vel := 0, size := 5 } }
  points := { points := 0, text := "Points: 0".toList }
  overlay_text_layer := none
  timers := [33]
  world := ()
  log := []

/-- The state one frame after `sample_fly`. -/
def sample_fly_after : State Unit where
  game_state := GameState.GAME_ACTIVE
  player := { obj := { x_pos := 0, y_pos := 79, x_vel := 0, y_vel := -5, size := 20 },
              health := 100 }
  opponent := { obj := { x_pos := 97, y_pos := 84, x_vel := -3, y_vel := 0, size := 10 } }
  bullet := { obj := { x_pos := 60, y_pos := 84, x_vel := 10, y_vel := 0, size := 5 } }
  points := { points := 0, text := "Points: 0".toList }
  overlay_text_layer := none
  timers := [33]
  world := ()
  log := [Call.player_update, Call.opponent_update, Call.bullet_update,
    Call.object_collides Entity.bullet Entity.opponent,
    Call.object_collides Entity.player Entity.opponent,
    Call.player_draw, Call.opponent_draw, Call.bullet_draw, Call.player_health_draw]

/-! ## Lemmas -/

theorem points_update_zero (s : State W) :
    points_update 0 { s with points := { s.points with points := 0 } } =
      some { s with points := { points := 0, text := "Points: 0".toList } } := by
  simp [points_update, INT_MIN, INT_MAX]
  rfl

/-! ### Length of a decimal rendering -/

theorem toDigitsCore_length_le (fuel : Nat) :
    ∀ (n e : Nat) (acc : List Char), n < fuel → n < 10 ^ e → 0 < e →
      (Nat.toDigitsCore 10 fuel n acc).length ≤ e + acc.length := by
  induction fuel with
  | zero => intro n e acc hf; omega
  | succ f ih =>
    intro n e acc hf hn he
    unfold Nat.toDigitsCore
    by_cases hz : n / 10 = 0
    · simp [hz]; omega
    · simp only [hz, if_false]
      obtain ⟨e', rfl⟩ : ∃ e', e = e' + 1 := ⟨e - 1, by omega⟩
      have hpos : 0 < e' := by
        rcases Nat.eq_zero_or_pos e' with h0 | h0
        · subst h0; simp at hn; omega
        · exact h0
      have hlt : n / 10 < 10 ^ e' := by
        rw [pow_succ] at hn
        omega
      have := ih (n / 10) e' (Nat.digitChar (n % 10) :: acc) (by omega) hlt hpos
      simp only [List.length_cons] at this
      omega

theorem toDigitsCore_length_ge (fuel : Nat) :
    ∀ (n e : Nat) (acc : List Char), n < fuel → 10 ^ e ≤ n →
      e + 1 + acc.length ≤ (Nat.toDigitsCore 10 fuel n acc).length := by
  induction fuel with
  | zero => intro n e acc hf; omega
  | succ f ih =>
    intro n e acc hf hn
    unfold Nat.toDigitsCore
    by_cases hz : n / 10 = 0
    · have hlt : n < 10 := by omega
      have he : e = 0 := by
        rcases Nat.eq_zero_or_pos e with h0 | h0
        · exact h0
        · have : 10 ^ 1 ≤ 10 ^ e := Nat.pow_le_pow_right (by decide) h0
          omega
      subst he
      simp [hz]
      omega
    · simp only [hz, if_false]
      rcases Nat.eq_zero_or_pos e with h0 | h0
      · subst h0
        have := ih (n / 10) 0 (Nat.digitChar (n % 10) :: acc) (by omega) (by simp; omega)
        simp only [List.length_cons] at this
        omega
      · obtain ⟨e', rfl⟩ : ∃ e', e = e' + 1 := ⟨e - 1, by omega⟩
        have hge : 10 ^ e' ≤ n / 10 := by
          rw [pow_succ] at hn
          omega
        have := ih (n / 10) e' (Nat.digitChar (n % 10) :: acc) (by omega) hge
        simp only [List.length_cons] at this
        omega

theorem toDigits_length_le_iff (n k : Nat) (hk : 0 < k) :
    (Nat.toDigits 10 n).length ≤ k ↔ n < 10 ^ k := by
  unfold Nat.toDigits
  constructor
  · intro hlen
    by_contra hge
    have := toDigitsCore_length_ge (n + 1) n k [] (by omega) (by omega)
    simp at this
    omega
  · intro hlt
    have := toDigitsCore_length_le (n + 1) n k [] (by omega) hlt hk
    simpa using this

theorem fmt_i_length_le_six (n : Int) :
    (fmt_i n).length ≤ 6 ↔ -99999 ≤ n ∧ n ≤ 999999 := by
  unfold fmt_i
  by_cases hneg : n < 0
  · simp only [hneg, if_true, List.length_cons]
    rw [show (Nat.toDigits 10 n.natAbs).length + 1 ≤ 6 ↔ (Nat.toDigits 10 n.natAbs).length ≤ 5
      by omega, toDigits_length_le_iff _ 5 (by decide)]
    omega
  · simp only [hneg, if_false]
    rw [toDigits_length_le_iff _ 6 (by decide)]
    omega

/-! ### `game_init` -/

theorem game_init_defined (h : Helpers W) (s : State W) :
    ∃ s', game_init h s = some s' := by
  simp [game_init, points_update, INT_MIN, INT_MAX]

theorem game_init_game_state (h : Helpers W) (s s' : State W)
    (hs : game_init h s = some s') : s'.game_state = GameState.GAME_ACTIVE := by
  simp only [game_init, points_update, INT_MIN, INT_MAX] at hs
  simp at hs
  subst hs
  simp [timer_callback, State.record, app_timer_register, call_bullet_hide,
    call_opponent_respawn, overlay_close]
  cases s.overlay_text_layer <;> simp [State.record]

theorem game_init_log (h : Helpers W) (s s' : State W) (hs : game_init h s = some s') :
    s'.log = s.log ++ (if s.overlay_text_layer.isSome then [Call.text_layer_destroy] else []) ++
      [Call.opponent_respawn, Call.bullet_hide, Call.layer_mark_dirty,
        Call.app_timer_register 33] := by
  simp only [game_init, points_update, INT_MIN, INT_MAX] at hs
  simp at hs
  subst hs
  cases ho : s.overlay_text_layer <;>
    simp [timer_callback, State.record, app_timer_register, call_bullet_hide,
      call_opponent_respawn, overlay_close, ho]

theorem step_up_down (h : Helpers W) (e : Event) (s : State W) (he : e.is_up_down = true) :
    ∃ v : Int, (v = -5 ∨ v = 0 ∨ v = 5) ∧ step h e s = some (set_player_y_vel v s) := by
  cases e <;> simp [Event.is_up_down] at he
  · exact ⟨-5, by simp, rfl⟩
  · exact ⟨0, by simp, rfl⟩
  · exact ⟨5, by simp, rfl⟩
  · exact ⟨0, by simp, rfl⟩

theorem run_up_down (h : Helpers W) (evs : List Event) :
    ∀ s : State W, (∀ e ∈ evs, e.is_up_down = true) →
      (s.player.obj.y_vel = -5 ∨ s.player.obj.y_vel = 0 ∨ s.player.obj.y_vel = 5) →
      ∃ s', run h evs s = some s' ∧
        (s'.player.obj.y_vel = -5 ∨ s'.player.obj.y_vel = 0 ∨ s'.player.obj.y_vel = 5) ∧
        s'.player.obj.x_vel = s.player.obj.x_vel := by
  induction evs with
  | nil => intro s _ hv; exact ⟨s, rfl, hv, rfl⟩
  | cons e es ih =>
    intro s hall hv
    obtain ⟨v, hv', hstep⟩ := step_up_down h e s (hall e (List.mem_cons_self _ _))
    obtain ⟨s', hrun, hy, hx⟩ := ih (set_player_y_vel v s)
      (fun e' he' => hall e' (List.mem_cons_of_mem _ he')) (by simpa [set_player_y_vel] using hv')
    exact ⟨s', by simp [run, hstep, hrun], hy, by simpa [set_player_y_vel] using hx⟩

/-! ### The phases of an Active frame -/

theorem points_update_some (d : Int) (s s' : State W) (hs : points_update d s = some s') :
    INT_MIN ≤ s.points.points + d ∧ s.points.points + d ≤ INT_MAX ∧
    s' = { s with points :=
      { points := s.points.points + d,
        text := snprintf ARRAYSIZE_points_text (points_format (s.points.points + d)) } } := by
  unfold points_update at hs
  simp only [] at hs
  split at hs
  · rename_i hr
    exact ⟨hr.1, hr.2, by simpa using hs.symm⟩
  · simp at hs

theorem points_update_defined (d : Int) (s : State W)
    (h1 : INT_MIN ≤ s.points.points + d) (h2 : s.points.points + d ≤ INT_MAX) :
    ∃ s', points_update d s = some s' := by
  unfold points_update
  simp [h1, h2]

theorem frame_advance_facts (h : Helpers W) (s : State W) :
    (frame_advance h s).game_state = s.game_state ∧
    (frame_advance h s).points = s.points ∧
    (frame_advance h s).timers = s.timers ∧
    (frame_advance h s).player = (h.player_update s.world s.player).2 ∧
    (frame_advance h s).log =
      s.log ++ [Call.player_update, Call.opponent_update, Call.bullet_update] := by
  simp [frame_advance, call_bullet_update, call_opponent_update, call_player_update]

theorem frame_bullet_hit_facts (h : Helpers W) (s s2 : State W)
    (hs : frame_bullet_hit h s = some s2) :
    s2.game_state = s.game_state ∧
    s2.timers = s.timers ∧
    s2.player = s.player ∧
    s2.points.points = s.points.points + (if bullet_hits h s then 1 else 0) ∧
    s2.log = s.log ++ [Call.object_collides Entity.bullet Entity.opponent] ++
      (if bullet_hits h s then [Call.bullet_hide, Call.opponent_kill] else []) ∧
    (s.points.text = snprintf ARRAYSIZE_points_text (points_format s.points.points) →
      s2.points.text = snprintf ARRAYSIZE_points_text (points_format s2.points.points)) := by
  unfold frame_bullet_hit at hs
  cases hb : bullet_hits h s
  · simp [hb] at hs
    subst hs
    simp [State.record]
  · simp only [hb, if_true, Option.map_eq_some'] at hs
    obtain ⟨s1, hs1, rfl⟩ := hs
    obtain ⟨_, _, rfl⟩ := points_update_some _ _ _ hs1
    simp [State.record, call_opponent_kill, call_bullet_hide]

theorem frame_boundary_facts (h : Helpers W) (s s3 : State W)
    (hs : frame_boundary h s = some s3) :
    s3.game_state = s.game_state ∧
    s3.timers = s.timers ∧
    s3.player = s.player ∧
    s3.points.points = s.points.points - (if opponent_passed s then 1 else 0) ∧
    s3.log = s.log ++
      (if opponent_passed s then [Call.opponent_respawn, Call.vibes_short_pulse] else []) ∧
    (s.points.text = snprintf ARRAYSIZE_points_text (points_format s.points.points) →
      s3.points.text = snprintf ARRAYSIZE_points_text (points_format s3.points.points)) := by
  unfold frame_boundary at hs
  cases hb : opponent_passed s
  · simp [hb] at hs
    subst hs
    simp
  · simp only [hb, if_true, Option.map_eq_some'] at hs
    obtain ⟨s1, hs1, rfl⟩ := hs
    obtain ⟨_, _, rfl⟩ := points_update_some _ _ _ hs1
    simp [State.record, call_opponent_respawn]
    rfl

theorem frame_player_hit_facts (h : Helpers W) (s : State W) :
    (frame_player_hit h s).game_state = s.game_state ∧
    (frame_player_hit h s).timers = s.timers ∧
    (frame_player_hit h s).points = s.points ∧
    (frame_player_hit h s).player =
      (if player_crashes h s then
        (h.player_health_update s.world s.player (-s.opponent.obj.size)).2
      else s.player) ∧
    (frame_player_hit h s).log =
      s.log ++ [Call.object_collides Entity.player Entity.opponent] ++
      (if player_crashes h s then
        [Call.player_health_update (-s.opponent.obj.size), Call.opponent_kill,
          Call.vibes_short_pulse]
      else []) := by
  unfold frame_player_hit
  cases hb : player_crashes h s <;>
    simp [State.record, call_opponent_kill, call_player_health_update]

theorem frame_draw_facts (h : Helpers W) (s : State W) :
    (frame_draw h s).game_state = s.game_state ∧
    (frame_draw h s).timers = s.timers ∧
    (frame_draw h s).points = s.points ∧
    (frame_draw h s).log = s.log ++
      [Call.player_draw, Call.opponent_draw, Call.bullet_draw, Call.player_health_draw] := by
  simp [frame_draw, call_player_health_draw, call_bullet_draw, call_opponent_draw,
    call_player_draw]

theorem option_map_bind {α β γ : Type} (x : Option α) (g : α → Option β) (f : β → γ) :
    (x.bind g).map f = x.bind (fun a => (g a).map f) := by
  cases x <;> rfl

theorem frame_advance_eq (h : Helpers W) (s : State W) :
    frame_advance h s =
      { s with
        player := (h.player_update s.world s.player).2
        opponent := (h.opponent_update (h.player_update s.world s.player).1 s.opponent).2
        bullet := (h.bullet_update
          (h.opponent_update (h.player_update s.world s.player).1 s.opponent).1 s.bullet).2
        world := (h.bullet_update
          (h.opponent_update (h.player_update s.world s.player).1 s.opponent).1 s.bullet).1
        log := s.log ++ [Call.player_update, Call.opponent_update, Call.bullet_update] } := by
  simp [frame_advance, call_bullet_update, call_opponent_update, call_player_update]

theorem frame_bullet_hit_opponent (h : Helpers W) (s s2 : State W)
    (hs : frame_bullet_hit h s = some s2) :
    s2.opponent =
      (if h.object_collides s.world s.bullet.obj s.opponent.obj then
        (h.opponent_kill (h.bullet_hide s.world s.bullet).1 s.opponent).2
      else s.opponent) := by
  unfold frame_bullet_hit at hs
  cases hb : bullet_hits h s
  · have hb' : h.object_collides s.world s.bullet.obj s.opponent.obj = false := hb
    simp [hb] at hs
    subst hs
    simp [State.record, hb']
  · have hb' : h.object_collides s.world s.bullet.obj s.opponent.obj = true := hb
    simp only [hb, if_true, Option.map_eq_some'] at hs
    obtain ⟨s1, hs1, rfl⟩ := hs
    obtain ⟨_, _, rfl⟩ := points_update_some _ _ _ hs1
    simp [State.record, call_opponent_kill, call_bullet_hide, hb']

theorem render_active_some (h : Helpers W) (s s' : State W)
    (hA : s.game_state = GameState.GAME_ACTIVE)
    (hr : render_layer_update_callback h s = some s') :
    ∃ s2 s3, frame_bullet_hit h (frame_advance h s) = some s2 ∧
      frame_boundary h s2 = some s3 ∧
      frame_before_player_hit h s = some s3 ∧
      s' = frame_draw h (frame_player_hit h s3) := by
  simp only [render_layer_update_callback, hA, Option.map_eq_some'] at hr
  obtain ⟨s3, h3, rfl⟩ := hr
  have h3' := h3
  simp only [frame_before_player_hit, Option.bind_eq_some] at h3
  obtain ⟨s2, h2, h23⟩ := h3
  exact ⟨s2, s3, h2, h23, h3', rfl⟩

theorem render_defined (h : Helpers W) (s : State W)
    (hlo : INT_MIN < s.points.points) (hhi : s.points.points < INT_MAX) :
    ∃ s', render_layer_update_callback h s = some s' := by
  unfold render_layer_update_callback
  cases hg : s.game_state
  · simp only [Option.map_eq_some']
    suffices hsuff : ∃ s3, frame_before_player_hit h s = some s3 by
      obtain ⟨s3, h3⟩ := hsuff
      exact ⟨_, s3, h3, rfl⟩
    have hp := (frame_advance_facts h s).2.1
    have h2 : ∃ s2, frame_bullet_hit h (frame_advance h s) = some s2 := by
      unfold frame_bullet_hit
      cases hb : bullet_hits h (frame_advance h s)
      · simp
      · simp only [if_true, Option.map_eq_some']
        obtain ⟨s1, hs1⟩ := points_update_defined 1
          ((frame_advance h s).record (Call.object_collides Entity.bullet Entity.opponent))
          (by simp only [State.record, hp]; omega) (by simp only [State.record, hp]; omega)
        exact ⟨_, s1, hs1, rfl⟩
    obtain ⟨s2, hs2⟩ := h2
    have hp2 := (frame_bullet_hit_facts h _ s2 hs2).2.2.2.1
    rw [hp] at hp2
    have h3 : ∃ s3, frame_boundary h s2 = some s3 := by
      unfold frame_boundary
      cases hb : opponent_passed s2
      · simp
      · simp only [if_true, Option.map_eq_some']
        obtain ⟨s1, hs1⟩ := points_update_defined (-1) s2
          (by rw [hp2]; split <;> omega) (by rw [hp2]; split <;> omega)
        exact ⟨_, s1, hs1, rfl⟩
    obtain ⟨s3, hs3⟩ := h3
    exact ⟨s3, by simp [frame_before_player_hit, hs2, hs3]⟩
  · exact ⟨s, rfl⟩
  · exact ⟨s, rfl⟩

theorem game_init_result (h : Helpers W) (t : State W) :
    ∃ t', game_init h t = some t' ∧
      t'.reset_part = (GameState.GAME_ACTIVE,
        { obj := { x_pos := 0, y_pos := 84, x_vel := 0, y_vel := 0, size := 20 },
          health := 100 }, { points := 0, text := "Points: 0".toList }) ∧
      t'.opponent = (h.opponent_respawn t.world t.opponent).2 ∧
      t'.bullet = (h.bullet_hide (h.opponent_respawn t.world t.opponent).1
        { t.bullet with obj := { t.bullet.obj with size := 5 } }).2 := by
  obtain ⟨t', ht'⟩ := game_init_defined h t
  refine ⟨t', ht', ?_⟩
  simp only [game_init, points_update_zero] at ht'
  simp at ht'
  subst ht'
  cases ho : t.overlay_text_layer <;>
    simp [State.reset_part, timer_callback, State.record, app_timer_register,
      call_bullet_hide, call_opponent_respawn, overlay_close, ho]

/-! ### Invariants of the event loop -/

theorem run_invariant (h : Helpers W) (P : State W → Prop)
    (hstep : ∀ e s s', P s → step h e s = some s' → P s') (evs : List Event) :
    ∀ s s', P s → run h evs s = some s' → P s' := by
  induction evs with
  | nil =>
    intro s s' hP hr
    simp only [run, Option.some.injEq] at hr
    exact hr ▸ hP
  | cons e es ih =>
    intro s s' hP hr
    simp only [run, Option.bind_eq_some] at hr
    obtain ⟨s1, h1, h2⟩ := hr
    exact ih s1 s' (hstep e s s1 hP h1) h2

theorem render_facts (h : Helpers W) (s s' : State W)
    (hr : render_layer_update_callback h s = some s') :
    s'.game_state = s.game_state ∧ s'.timers = s.timers ∧
    (s.points.text = snprintf ARRAYSIZE_points_text (points_format s.points.points) →
      s'.points.text = snprintf ARRAYSIZE_points_text (points_format s'.points.points)) := by
  cases hg : s.game_state
  · obtain ⟨s2, s3, h2, h3, _, rfl⟩ := render_active_some h s s' hg hr
    obtain ⟨a1, a2, a3, _, _⟩ := frame_advance_facts h s
    obtain ⟨b1, b2, _, _, _, b6⟩ := frame_bullet_hit_facts h _ s2 h2
    obtain ⟨c1, c2, _, _, _, c6⟩ := frame_boundary_facts h s2 s3 h3
    obtain ⟨d1, d2, d3, _, _⟩ := frame_player_hit_facts h s3
    obtain ⟨e1, e2, e3, _⟩ := frame_draw_facts h (frame_player_hit h s3)
    refine ⟨by rw [e1, d1, c1, b1, a1, hg], by rw [e2, d2, c2, b2, a3], fun hsync => ?_⟩
    rw [e3, d3]
    exact c6 (b6 (by rw [a2]; exact hsync))
  · simp only [render_layer_update_callback, hg, Option.some.injEq] at hr
    subst hr
    exact ⟨hg, rfl, id⟩
  · simp only [render_layer_update_callback, hg, Option.some.injEq] at hr
    subst hr
    exact ⟨hg, rfl, id⟩

theorem game_init_facts (h : Helpers W) (s s' : State W) (hs : game_init h s = some s') :
    s'.game_state = GameState.GAME_ACTIVE ∧ s'.timers = s.timers ++ [33] ∧
    s'.points.text = snprintf ARRAYSIZE_points_text (points_format s'.points.points) := by
  simp only [game_init, points_update_zero] at hs
  simp at hs
  subst hs
  cases ho : s.overlay_text_layer <;>
    simp [timer_callback, State.record, app_timer_register, call_bullet_hide,
      call_opponent_respawn, overlay_close, ho] <;> rfl

theorem step_not_over (h : Helpers W) (e : Event) (s s' : State W)
    (hP : s.game_state ≠ GameState.GAME_OVER) (hs : step h e s = some s') :
    s'.game_state ≠ GameState.GAME_OVER := by
  cases e
  case back =>
    simp only [step, Option.some.injEq] at hs
    subst hs
    unfold click_back_handler
    cases hg : s.game_state <;> simp_all [game_pause, overlay_open, State.record]
  case select =>
    simp only [step, start_select_handler] at hs
    cases hg : s.game_state
    · simp [hg] at hs
      subst hs
      simp [call_bullet_respawn, hg]
    · simp [hg] at hs
      subst hs
      simp [game_unpause, overlay_close]
      cases s.overlay_text_layer <;> simp [State.record]
    · exact absurd hg hP
  case timer i =>
    simp only [step, timer_fire] at hs
    split at hs
    · simp only [Option.some.injEq] at hs
      subst hs
      unfold timer_callback
      cases hg : s.game_state <;> simp_all [State.record, app_timer_register]
    · simp at hs
  case render =>
    rw [(render_facts h s s' hs).1]
    exact hP
  all_goals
    simp only [step, Option.some.injEq] at hs
    subst hs
    simpa [start_up_handler, end_up_handler, start_down_handler, end_down_handler,
      set_player_y_vel] using hP

theorem step_one_timer (h : Helpers W) (e : Event) (s s' : State W)
    (hP : s.game_state ≠ GameState.GAME_OVER ∧ s.timers = [1000 / 30])
    (hs : step h e s = some s') :
    s'.game_state ≠ GameState.GAME_OVER ∧ s'.timers = [1000 / 30] := by
  refine ⟨step_not_over h e s s' hP.1 hs, ?_⟩
  obtain ⟨hno, ht⟩ := hP
  cases e
  case back =>
    simp only [step, Option.some.injEq] at hs
    subst hs
    unfold click_back_handler
    cases hg : s.game_state <;> simp_all [game_pause, overlay_open, State.record]
  case select =>
    simp only [step, start_select_handler] at hs
    cases hg : s.game_state
    · simp [hg] at hs
      subst hs
      simp [call_bullet_respawn, ht]
    · simp [hg] at hs
      subst hs
      simp [game_unpause, overlay_close]
      cases s.overlay_text_layer <;> simp [State.record, ht]
    · exact absurd hg hno
  case timer i =>
    simp only [step, timer_fire] at hs
    split at hs
    · rename_i hi
      simp only [Option.some.injEq] at hs
      subst hs
      have hi0 : i = 0 := by
        rw [ht] at hi
        simpa using hi
      subst hi0
      unfold timer_callback
      cases hg : s.game_state <;> simp_all [State.record, app_timer_register]
    · simp at hs
  case render =>
    rw [(render_facts h s s' hs).2.1]
    exact ht
  all_goals
    simp only [step, Option.some.injEq] at hs
    subst hs
    simpa [start_up_handler, end_up_handler, start_down_handler, end_down_handler,
      set_player_y_vel] using ht

theorem step_text_in_sync (h : Helpers W) (e : Event) (s s' : State W)
    (hP : s.points.text = snprintf ARRAYSIZE_points_text (points_format s.points.points))
    (hs : step h e s = some s') :
    s'.points.text = snprintf ARRAYSIZE_points_text (points_format s'.points.points) := by
  cases e
  case back =>
    simp only [step, Option.some.injEq] at hs
    subst hs
    unfold click_back_handler
    cases hg : s.game_state <;> simpa [game_pause, overlay_open, State.record] using hP
  case select =>
    simp only [step, start_select_handler] at hs
    cases hg : s.game_state
    · simp [hg] at hs
      subst hs
      simpa [call_bullet_respawn] using hP
    · simp [hg] at hs
      subst hs
      simp only [game_unpause, overlay_close]
      cases s.overlay_text_layer <;> simpa [State.record] using hP
    · simp only [hg] at hs
      exact (game_init_facts h s s' hs).2.2
  case timer i =>
    simp only [step, timer_fire] at hs
    split at hs
    · simp only [Option.some.injEq] at hs
      subst hs
      unfold timer_callback
      cases hg : s.game_state <;> simp_all [State.record, app_timer_register]
    · simp at hs
  case render =>
    exact (render_facts h s s' hs).2.2 hP
  all_goals
    simp only [step, Option.some.injEq] at hs
    subst hs
    simpa [start_up_handler, end_up_handler, start_down_handler, end_down_handler,
      set_player_y_vel] using hP

/-! ## The claims -/

/-- C1. The button transitions of the game-state machine: Back leads from
Active to Paused and leaves Paused and Over as they are, doing nothing but
popping the window there; Select leads to Active from each of the three states
(from Over through `game_init`) and always returns. -/
theorem button_transitions (h : Helpers W) (s : State W) :
    (click_back_handler s).game_state = spec_back s.game_state ∧
    (match s.game_state with
      | GameState.GAME_ACTIVE => True
      | GameState.GAME_PAUSED => click_back_handler s = s.record Call.window_stack_pop
      | GameState.GAME_OVER => click_back_handler s = s.record Call.window_stack_pop) ∧
    (start_select_handler h s).map (fun s' => s'.game_state) =
      some (spec_select s.game_state) := by
  refine ⟨?_, ?_, ?_⟩
  · unfold click_back_handler
    cases hg : s.game_state <;>
      simp [spec_back, game_pause, overlay_open, State.record, hg]
  · unfold click_back_handler
    cases hg : s.game_state <;> simp
  · unfold start_select_handler
    cases hg : s.game_state
    · simp [spec_select, call_bullet_respawn, hg]
    · simp [spec_select, game_unpause, overlay_close]
      cases s.overlay_text_layer <;> simp [State.record]
    · obtain ⟨s', hs'⟩ := game_init_defined h s
      simp [spec_select, hs', game_init_game_state h s s' hs']

/-- C9. The function `game_init` returns from every prior state, and afterwards
the game is Active, the player has health 100, position (0, 84), velocity (0, 0)
and size 20, the opponent is what `opponent_respawn` made of the prior opponent,
the bullet is what `bullet_hide` made of the prior bullet with size 5 (so its
size is 5 when `bullet_hide` keeps the size), the counter is 0 and the text is "Points: 0".  The state, player and points after
the call are the same whatever the prior state was, and the opponent and bullet
after the call are determined by the prior world, opponent and bullet alone. -/
theorem game_init_resets (h : Helpers W) (s : State W) :
    ∃ s', game_init h s = some s' ∧
      s'.game_state = GameState.GAME_ACTIVE ∧
      s'.player.health = 100 ∧
      s'.player.obj = { x_pos := 0, y_pos := 84, x_vel := 0, y_vel := 0, size := 20 } ∧
      s'.opponent = (h.opponent_respawn s.world s.opponent).2 ∧
      s'.bullet = (h.bullet_hide (h.opponent_respawn s.world s.opponent).1
        { s.bullet with obj := { s.bullet.obj with size := 5 } }).2 ∧
      ((∀ w b, (h.bullet_hide w b).2.obj.size = b.obj.size) → s'.bullet.obj.size = 5) ∧
      s'.points.points = 0 ∧
      s'.points.text = "Points: 0".toList ∧
      (∀ t : State W, (game_init h t).map State.reset_part = some s'.reset_part) ∧
      (∀ t : State W,
        (game_init h { t with world := s.world, opponent := s.opponent, bullet := s.bullet }).map
          (fun t' => (t'.opponent, t'.bullet)) = some (s'.opponent, s'.bullet)) := by
  have key := game_init_result h
  obtain ⟨s', hs', hreset, hopp, hbul⟩ := key s
  refine ⟨s', hs', ?_, ?_, ?_, hopp, hbul, ?_, ?_, ?_, ?_, ?_⟩
  · exact (congrArg (fun r => r.1) hreset)
  · exact (congrArg (fun r => r.2.1.health) hreset)
  · exact (congrArg (fun r => r.2.1.obj) hreset)
  · intro hsize
    rw [hbul, hsize]
  · exact (congrArg (fun r => r.2.2.points) hreset)
  · exact (congrArg (fun r => r.2.2.text) hreset)
  · intro t
    obtain ⟨t', ht', htreset, _, _⟩ := key t
    rw [ht', Option.map_some', htreset, hreset]
  · intro t
    obtain ⟨t', ht', _, htopp, htbul⟩ :=
      key ({ t with world := s.world, opponent := s.opponent, bullet := s.bullet })
    rw [ht', Option.map_some', htopp, htbul, hopp, hbul]

/-- C4. Select while Active returns after exactly one outside call,
`bullet_respawn` at (player.x_pos + player.size, player.y_pos) with velocity
(10, 0); the bullet is that call's result and game_state, player, opponent and
points are as before.  Select while Paused or Over returns without any call to
`bullet_respawn`. -/
theorem select_fires_bullet (h : Helpers W) (s : State W) :
    match s.game_state with
    | GameState.GAME_ACTIVE =>
      ∃ s', start_select_handler h s = some s' ∧
        s'.log = s.log ++ [Call.bullet_respawn (s.player.obj.x_pos + s.player.obj.size)
          s.player.obj.y_pos 10 0] ∧
        s'.bullet = (h.bullet_respawn s.world s.bullet (s.player.obj.x_pos + s.player.obj.size)
          s.player.obj.y_pos 10 0).2 ∧
        s'.game_state = s.game_state ∧ s'.player = s.player ∧ s'.opponent = s.opponent ∧
        s'.points = s.points
    | GameState.GAME_PAUSED =>
      ∃ s' calls, start_select_handler h s = some s' ∧ s'.log = s.log ++ calls ∧
        ∀ x y vx vy, Call.bullet_respawn x y vx vy ∉ calls
    | GameState.GAME_OVER =>
      ∃ s' calls, start_select_handler h s = some s' ∧ s'.log = s.log ++ calls ∧
        ∀ x y vx vy, Call.bullet_respawn x y vx vy ∉ calls := by
  cases hg : s.game_state
  · simp [start_select_handler, hg, call_bullet_respawn]
  · simp only [start_select_handler, hg]
    cases ho : s.overlay_text_layer
    · exact ⟨_, [], rfl, by simp [game_unpause, overlay_close, ho], by simp⟩
    · exact ⟨_, [Call.text_layer_destroy], rfl,
        by simp [game_unpause, overlay_close, ho, State.record], by simp⟩
  · simp only [start_select_handler, hg]
    obtain ⟨s', hs'⟩ := game_init_defined h s
    refine ⟨s', (if s.overlay_text_layer.isSome then [Call.text_layer_destroy] else []) ++
      [Call.opponent_respawn, Call.bullet_hide, Call.layer_mark_dirty,
        Call.app_timer_register 33], hs', ?_, ?_⟩
    · rw [game_init_log h s s' hs', List.append_assoc]
    · intro x y vx vy
      cases s.overlay_text_layer <;> simp

/-- C5. In every game state each of the four Up/Down handlers assigns
`player.obj.y_vel` (-5 on Up pressed, 5 on Down pressed, 0 on either release)
and changes nothing else.  After `game_init`, every sequence of these four
events runs to the end and leaves y_vel in {-5, 0, 5} and x_vel at 0. -/
theorem up_down_handlers (h : Helpers W) (s : State W) :
    ((start_up_handler s).player.obj.y_vel = -5 ∧ same_except_y_vel s (start_up_handler s)) ∧
    ((start_down_handler s).player.obj.y_vel = 5 ∧
      same_except_y_vel s (start_down_handler s)) ∧
    ((end_up_handler s).player.obj.y_vel = 0 ∧ same_except_y_vel s (end_up_handler s)) ∧
    ((end_down_handler s).player.obj.y_vel = 0 ∧ same_except_y_vel s (end_down_handler s)) ∧
    ∃ s1, game_init h s = some s1 ∧
      ∀ evs : List Event, (∀ e ∈ evs, e.is_up_down = true) →
        ∃ s', run h evs s1 = some s' ∧
          (s'.player.obj.y_vel = -5 ∨ s'.player.obj.y_vel = 0 ∨ s'.player.obj.y_vel = 5) ∧
          s'.player.obj.x_vel = 0 := by
  refine ⟨?_, ?_, ?_, ?_, ?_⟩
  · simp [start_up_handler, set_player_y_vel, same_except_y_vel]
  · simp [start_down_handler, set_player_y_vel, same_except_y_vel]
  · simp [end_up_handler, set_player_y_vel, same_except_y_vel]
  · simp [end_down_handler, set_player_y_vel, same_except_y_vel]
  · obtain ⟨s1, hs1, hreset, _⟩ := game_init_result h s
    have hobj : s1.player.obj =
        { x_pos := 0, y_pos := 84, x_vel := 0, y_vel := 0, size := 20 } :=
      congrArg (fun r => r.2.1.obj) hreset
    refine ⟨s1, hs1, fun evs hall => ?_⟩
    obtain ⟨s', hrun, hy, hx⟩ := run_up_down h evs s1 hall (by simp [hobj])
    exact ⟨s', hrun, hy, by simpa [hobj] using hx⟩

/-- C2. In an Active frame the counter ends at its old value, plus one when
`object_collides` reports the bullet on the opponent, both taken as
`bullet_update` and `opponent_update` returned them (the helpers having run in
the order player, opponent, bullet), minus one when the opponent as it is after
that block, killed on a hit, has x_pos + size strictly below 0.  So the counter
moves by -1, 0 or +1, and an opponent whose right edge is exactly 0 costs
nothing.  The frame returns whenever the counter is strictly inside the range
of `int`. -/
theorem frame_points (h : Helpers W) (s : State W)
    (hA : s.game_state = GameState.GAME_ACTIVE) :
    let r1 := h.player_update s.world s.player
    let r2 := h.opponent_update r1.1 s.opponent
    let r3 := h.bullet_update r2.1 s.bullet
    let hit := h.object_collides r3.1 r3.2.obj r2.2.obj
    let o4 := if hit then (h.opponent_kill (h.bullet_hide r3.1 r3.2).1 r2.2).2 else r2.2
    (INT_MIN < s.points.points ∧ s.points.points < INT_MAX →
      ∃ s', render_layer_update_callback h s = some s') ∧
    ∀ s', render_layer_update_callback h s = some s' →
      s'.points.points = s.points.points
        + (if hit then 1 else 0)
        - (if o4.obj.x_pos + o4.obj.size < 0 then 1 else 0) ∧
      (s'.points.points = s.points.points - 1 ∨ s'.points.points = s.points.points ∨
        s'.points.points = s.points.points + 1) ∧
      (o4.obj.x_pos + o4.obj.size = 0 →
        s'.points.points = s.points.points + (if hit then 1 else 0)) := by
  intro r1 r2 r3 hit o4
  refine ⟨fun hr => render_defined h s hr.1 hr.2, fun s' hr => ?_⟩
  obtain ⟨s2, s3, h2, h3, _, rfl⟩ := render_active_some h s s' hA hr
  obtain ⟨_, a2, _⟩ := frame_advance_facts h s
  obtain ⟨_, _, _, b4, _⟩ := frame_bullet_hit_facts h _ s2 h2
  obtain ⟨_, _, _, c4, _⟩ := frame_boundary_facts h s2 s3 h3
  obtain ⟨_, _, d3, _⟩ := frame_player_hit_facts h s3
  obtain ⟨_, _, e3, _⟩ := frame_draw_facts h (frame_player_hit h s3)
  have hhit : bullet_hits h (frame_advance h s) = hit := by
    rw [frame_advance_eq]
    rfl
  have hopp : s2.opponent = o4 := by
    rw [frame_bullet_hit_opponent h _ s2 h2, frame_advance_eq]
  have hpts : (frame_draw h (frame_player_hit h s3)).points.points = s.points.points
      + (if hit then 1 else 0)
      - (if o4.obj.x_pos + o4.obj.size < 0 then 1 else 0) := by
    rw [e3, d3, c4, b4, a2, hhit, ← hopp]
    simp [opponent_passed]
  refine ⟨hpts, ?_, ?_⟩
  · rw [hpts]
    split <;> split <;> omega
  · intro hedge
    rw [hpts, hedge]
    simp

/-- C7. A Paused or Over frame returns the state exactly as it was, call log
included, so it calls nothing.  An Active frame that returns leaves game_state
Active.  It first applies `player_update`, `opponent_update` and
`bullet_update`, in this order, each once: the rest of the frame, from the
first collision check on, runs on the state whose player, opponent and bullet
are what these helpers returned.  Its calls start with the three updates and
the first collision check, followed by `bullet_hide` and `opponent_kill` exactly
when `object_collides` reports the updated bullet on the updated opponent, and
none of the three updates is called again.  The frame returns whenever the
counter is strictly inside the range of `int`. -/
theorem frame_driven_by_state (h : Helpers W) (s : State W) :
    match s.game_state with
    | GameState.GAME_ACTIVE =>
      let r1 := h.player_update s.world s.player
      let r2 := h.opponent_update r1.1 s.opponent
      let r3 := h.bullet_update r2.1 s.bullet
      let s1 : State W :=
        { s with
          player := r1.2
          opponent := r2.2
          bullet := r3.2
          world := r3.1
          log := s.log ++ [Call.player_update, Call.opponent_update, Call.bullet_update] }
      (INT_MIN < s.points.points ∧ s.points.points < INT_MAX →
        ∃ s', render_layer_update_callback h s = some s') ∧
      ∀ s', render_layer_update_callback h s = some s' →
        s'.game_state = GameState.GAME_ACTIVE ∧
        (frame_bullet_hit h s1).bind (fun s2 => (frame_boundary h s2).map
          (fun s3 => frame_draw h (frame_player_hit h s3))) = some s' ∧
        ∃ rest, s'.log = s.log ++ [Call.player_update, Call.opponent_update,
            Call.bullet_update, Call.object_collides Entity.bullet Entity.opponent] ++
            (if h.object_collides r3.1 r3.2.obj r2.2.obj then
              [Call.bullet_hide, Call.opponent_kill]
            else []) ++ rest ∧
          Call.player_update ∉ rest ∧ Call.opponent_update ∉ rest ∧
          Call.bullet_update ∉ rest
    | GameState.GAME_PAUSED => render_layer_update_callback h s = some s
    | GameState.GAME_OVER => render_layer_update_callback h s = some s := by
  cases hA : s.game_state
  · simp only []
    have hadv := frame_advance_eq h s
    rw [hA] at hadv
    refine ⟨fun hr => render_defined h s hr.1 hr.2, fun s' hr => ?_⟩
    refine ⟨by rw [(render_facts h s s' hr).1, hA], ?_, ?_⟩
    · simp only [render_layer_update_callback, hA, frame_before_player_hit, hadv,
        option_map_bind] at hr
      exact hr
    obtain ⟨s2, s3, h2, h3, _, rfl⟩ := render_active_some h s s' hA hr
    obtain ⟨_, _, _, _, a5⟩ := frame_advance_facts h s
    obtain ⟨_, _, _, _, b5, _⟩ := frame_bullet_hit_facts h _ s2 h2
    obtain ⟨_, _, _, _, c5, _⟩ := frame_boundary_facts h s2 s3 h3
    obtain ⟨_, _, _, _, d5⟩ := frame_player_hit_facts h s3
    obtain ⟨_, _, _, e4⟩ := frame_draw_facts h (frame_player_hit h s3)
    refine ⟨(if opponent_passed s2 then [Call.opponent_respawn, Call.vibes_short_pulse]
        else []) ++
      [Call.object_collides Entity.player Entity.opponent] ++
      (if player_crashes h s3 then
        [Call.player_health_update (-s3.opponent.obj.size), Call.opponent_kill,
          Call.vibes_short_pulse]
      else []) ++
      [Call.player_draw, Call.opponent_draw, Call.bullet_draw, Call.player_health_draw],
      ?_, ?_, ?_, ?_⟩
    · rw [e4, d5, c5, b5, a5]
      simp [bullet_hits, frame_advance, call_bullet_update, call_opponent_update,
        call_player_update]
    all_goals
      cases opponent_passed s2 <;> cases player_crashes h s3 <;> simp
  · simp [render_layer_update_callback, hA]
  · simp [render_layer_update_callback, hA]

/-- C6. Let the window be loaded while no timer is pending; `window_load`
returns.  In every state reached from there by any sequence of events (button
handlers, timer expiries, render callbacks) at most one timer is pending, and
whenever the game is Active or Paused exactly one is, registered with a delay
of 33 ms.  In any state whatever that is Over, an expiring timer is taken from
the queue, marks the layer dirty and registers no successor. -/
theorem single_timer (h : Helpers W) (s0 s : State W) (evs : List Event)
    (h0 : s0.timers = [])
    (hr : (window_load h s0).bind (run h evs) = some s) :
    s.timers.length ≤ 1 ∧
    (s.game_state = GameState.GAME_ACTIVE ∨ s.game_state = GameState.GAME_PAUSED →
      s.timers = [33]) ∧
    (∀ (t : State W) (i : Nat), t.game_state = GameState.GAME_OVER → i < t.timers.length →
      ∃ t', timer_fire i t = some t' ∧ t'.timers = t.timers.eraseIdx i ∧
        t'.log = t.log ++ [Call.layer_mark_dirty]) := by
  simp only [Option.bind_eq_some] at hr
  obtain ⟨s1, hl, hrun⟩ := hr
  obtain ⟨g1, g2, _⟩ := game_init_facts h _ s1 hl
  have hinv1 : s1.game_state ≠ GameState.GAME_OVER ∧ s1.timers = [1000 / 30] := by
    refine ⟨by rw [g1]; decide, ?_⟩
    rw [g2]
    simp [State.record, h0]
  have hinv := run_invariant h
    (fun x => x.game_state ≠ GameState.GAME_OVER ∧ x.timers = [1000 / 30])
    (step_one_timer h) evs s1 s hinv1 hrun
  have ht : s.timers = [33] := hinv.2
  refine ⟨by rw [ht]; simp, fun _ => ht, ?_⟩
  intro t i hover hi
  refine ⟨timer_callback { t with timers := t.timers.eraseIdx i },
    by simp only [timer_fire, hi, if_true], ?_, ?_⟩ <;>
    simp [timer_callback, State.record, hover]

/-- C8. After `game_init`, which returns from every state, no sequence of
events (Back, Select, Up and Down pressed and released, timer expiry, render
callback) leads to Over: every state reached is Active or Paused. -/
theorem never_over (h : Helpers W) (s0 s : State W) (evs : List Event)
    (hr : (game_init h s0).bind (run h evs) = some s) :
    s.game_state ≠ GameState.GAME_OVER ∧
    (s.game_state = GameState.GAME_ACTIVE ∨ s.game_state = GameState.GAME_PAUSED) := by
  simp only [Option.bind_eq_some] at hr
  obtain ⟨s1, hi, hrun⟩ := hr
  have hinv1 : s1.game_state ≠ GameState.GAME_OVER := by
    rw [(game_init_facts h s0 s1 hi).1]
    decide
  have hinv := run_invariant h (fun x => x.game_state ≠ GameState.GAME_OVER)
    (step_not_over h) evs s1 s hinv1 hrun
  refine ⟨hinv, ?_⟩
  cases hg : s.game_state
  · exact Or.inl rfl
  · exact Or.inr rfl
  · exact absurd hg hinv

/-- C10. After `game_init` and after every further event the score text is
"Points: " followed by the decimal rendering of the counter, cut to its first 14
characters, so with the NUL it fits the 15 bytes; the text is the whole
rendering exactly when -99999 <= points <= 999999. -/
theorem points_text_in_sync (h : Helpers W) (s0 s : State W) (evs : List Event)
    (hr : (game_init h s0).bind (run h evs) = some s) :
    s.points.text = ("Points: ".toList ++ fmt_i s.points.points).take 14 ∧
    s.points.text.length + 1 ≤ 15 ∧
    (s.points.text = "Points: ".toList ++ fmt_i s.points.points ↔
      -99999 ≤ s.points.points ∧ s.points.points ≤ 999999) := by
  simp only [Option.bind_eq_some] at hr
  obtain ⟨s1, hi, hrun⟩ := hr
  have hinv := run_invariant h
    (fun x => x.points.text = snprintf ARRAYSIZE_points_text (points_format x.points.points))
    (step_text_in_sync h) evs s1 s (game_init_facts h s0 s1 hi).2.2 hrun
  have ht : s.points.text = ("Points: ".toList ++ fmt_i s.points.points).take 14 := hinv
  have hlen : ("Points: ".toList ++ fmt_i s.points.points).length
      = 8 + (fmt_i s.points.points).length := by
    rw [List.length_append]
    rfl
  refine ⟨ht, ?_, ?_⟩
  · rw [ht, List.length_take]
    omega
  · rw [ht, List.take_eq_self_iff, hlen, ← fmt_i_length_le_six]
    omega

/-! ## The claims at concrete inputs -/

theorem frame_points_witness :
    (sample_hit.game_state = GameState.GAME_ACTIVE ∧
      sample_pass.game_state = GameState.GAME_ACTIVE ∧
      sample_edge.game_state = GameState.GAME_ACTIVE) ∧
    (∀ s', render_layer_update_callback sample_helpers sample_hit = some s' →
      s'.points.points = 1) ∧
    (∀ s', render_layer_update_callback sample_helpers sample_pass = some s' →
      s'.points.points = -1) ∧
    (∀ s', render_layer_update_callback sample_helpers sample_edge = some s' →
      s'.points.points = 0) ∧
    (render_layer_update_callback sample_helpers sample_hit).map (fun s' => s'.points) =
      some { points := 1, text := "Points: 1".toList } ∧
    (render_layer_update_callback sample_helpers sample_pass).map (fun s' => s'.points) =
      some { points := -1, text := "Points: -1".toList } ∧
    (render_layer_update_callback sample_helpers sample_edge).map (fun s' => s'.points) =
      some { points := 0, text := "Points: 0".toList } :=
  ⟨⟨rfl, rfl, rfl⟩,
    fun s' hs' => ((frame_points sample_helpers sample_hit rfl).2 s' hs').1,
    fun s' hs' => ((frame_points sample_helpers sample_pass rfl).2 s' hs').1,
    fun s' hs' => ((frame_points sample_helpers sample_edge rfl).2 s' hs').2.2 rfl,
    rfl, rfl, rfl⟩

theorem single_timer_witness :
    sample_start.timers = [] ∧
    (window_load sample_helpers sample_start).bind
      (run sample_helpers [Event.back, Event.timer 0]) = some sample_paused ∧
    (sample_paused.timers.length ≤ 1 ∧
    (sample_paused.game_state = GameState.GAME_ACTIVE ∨
        sample_paused.game_state = GameState.GAME_PAUSED →
      sample_paused.timers = [33]) ∧
    (∀ (t : State Unit) (i : Nat), t.game_state = GameState.GAME_OVER → i < t.timers.length →
      ∃ t', timer_fire i t = some t' ∧ t'.timers = t.timers.eraseIdx i ∧
        t'.log = t.log ++ [Call.layer_mark_dirty])) :=
  ⟨rfl, rfl, single_timer sample_helpers sample_start sample_paused
    [Event.back, Event.timer 0] rfl rfl⟩

theorem never_over_witness :
    (game_init sample_helpers sample_start).bind
      (run sample_helpers [Event.select, Event.render, Event.back]) =
        some sample_scored_paused ∧
    (sample_scored_paused.game_state ≠ GameState.GAME_OVER ∧
    (sample_scored_paused.game_state = GameState.GAME_ACTIVE ∨
      sample_scored_paused.game_state = GameState.GAME_PAUSED)) :=
  ⟨rfl, never_over sample_helpers sample_start sample_scored_paused
    [Event.select, Event.render, Event.back] rfl⟩

theorem points_text_in_sync_witness :
    (game_init sample_helpers sample_start).bind
      (run sample_helpers [Event.select, Event.render]) = some sample_scored ∧
    (sample_scored.points.text =
      ("Points: ".toList ++ fmt_i sample_scored.points.points).take 14 ∧
    sample_scored.points.text.length + 1 ≤ 15 ∧
    (sample_scored.points.text = "Points: ".toList ++ fmt_i sample_scored.points.points ↔
      -99999 ≤ sample_scored.points.points ∧ sample_scored.points.points ≤ 999999)) :=
  ⟨rfl, points_text_in_sync sample_helpers sample_start sample_scored
    [Event.select, Event.render] rfl⟩

theorem game_init_resets_witness :
    ∃ s', game_init sample_helpers sample_scored = some s' ∧
      s'.bullet.obj.size = 5 ∧ s'.points.points = 0 ∧
      s'.points.text = "Points: 0".toList := by
  obtain ⟨s', hs', _, _, _, _, _, hsize, hpts, htext, _⟩ :=
    game_init_resets sample_helpers sample_scored
  exact ⟨s', hs', hsize (fun _ _ => rfl), hpts, htext⟩

theorem up_down_handlers_witness :
    ∃ s1 s', game_init sample_helpers sample_start = some s1 ∧
      run sample_helpers [Event.up_press, Event.up_release, Event.down_press] s1 = some s' ∧
      (s'.player.obj.y_vel = -5 ∨ s'.player.obj.y_vel = 0 ∨ s'.player.obj.y_vel = 5) ∧
      s'.player.obj.x_vel = 0 := by
  obtain ⟨_, _, _, _, s1, hs1, hrun⟩ := up_down_handlers sample_helpers sample_start
  obtain ⟨s', hs', hy, hx⟩ :=
    hrun [Event.up_press, Event.up_release, Event.down_press] (by decide)
  exact ⟨s1, s', hs1, hs', hy, hx⟩

theorem frame_driven_by_state_witness :
    render_layer_update_callback sample_helpers sample_fly = some sample_fly_after ∧
    sample_fly_after.game_state = GameState.GAME_ACTIVE ∧
    (sample_fly_after.player.obj.y_pos = 79 ∧ sample_fly_after.opponent.obj.x_pos = 97 ∧
      sample_fly_after.bullet.obj.x_pos = 60) ∧
    (∃ rest, sample_fly_after.log = [Call.player_update, Call.opponent_update,
        Call.bullet_update, Call.object_collides Entity.bullet Entity.opponent] ++ rest ∧
      Call.player_update ∉ rest ∧ Call.opponent_update ∉ rest ∧
      Call.bullet_update ∉ rest) ∧
    render_layer_update_callback sample_helpers sample_paused = some sample_paused := by
  have hA := frame_driven_by_state sample_helpers sample_fly
  change _ ∧ _ at hA
  obtain ⟨hg, _, rest, hlog, h1, h2, h3⟩ := hA.2 sample_fly_after rfl
  exact ⟨rfl, hg, ⟨rfl, rfl, rfl⟩, ⟨rest, hlog, h1, h2, h3⟩,
    frame_driven_by_state sample_helpers sample_paused⟩

end CircleAttack
